import Mathlib

/-!
Verification of the EPİAŞ transparency-API client and its response
normalization pipeline (authentication, retry-on-auth-failure request
wrapper, pagination, and the JSON-to-table processors).

The development shallowly embeds the Python sources:
  - `src/api/auth.py`    (`TGTManager`)
  - `src/api/epias.py`   (`EpiasClient._request`)
  - `src/data/processors.py` (`DataProcessor`)
  - `src/data/fetchers.py`   (`DataFetcher`)
JSON values are modelled by `JVal`; Python dynamic-typing failures
(`TypeError`, `KeyError`, `ValueError`, ...) are modelled by the `Except`
monad; `pandas` tables are modelled by `DataFrame` below; `NaT` is
`Option.none`.
-/

/-- A JSON value as deserialized by Python (`dict`s keep insertion order and
have unique keys, hence an association list). -/
inductive JVal where
  | null
  | bool (b : Bool)
  | num (q : ℚ)
  | str (s : String)
  | arr (elems : List JVal)
  | obj (fields : List (String × JVal))

/-- Python truthiness (`bool(x)`): `None`, `False`, `0`, `""`, `[]`, `{}`
are falsy, everything else truthy. -/
def truthy : JVal → Bool
  | .null => false
  | .bool b => b
  | .num q => !(q == 0)
  | .str s => !(s.data.isEmpty)
  | .arr elems => !elems.isEmpty
  | .obj fields => !fields.isEmpty

/-- `x.isObj` is `isinstance(x, dict)`. -/
def JVal.isObj : JVal → Bool
  | .obj _ => true
  | _ => false

/-- `dict.get(key, default)`. -/
def pyGet (fields : List (String × JVal)) (key : String) (default : JVal) : JVal :=
  (fields.lookup key).getD default

/-- Python's short-circuiting `a or b`. -/
def pyOr (a b : JVal) : JVal :=
  if truthy a then a else b

/-- Dictionary key test / sequence membership / substring test: Python's
`key in x`. Raises `TypeError` when `x` does not support `in`. -/
def isSubOf (needle : List Char) : List Char → Bool
  | [] => needle.isEmpty
  | c :: rest => needle.isPrefixOf (c :: rest) || isSubOf needle rest

def pyContains (x : JVal) (key : String) : Except String Bool :=
  match x with
  | .obj fields => .ok (fields.lookup key).isSome
  | .arr elems => .ok (elems.any (fun e => match e with | .str s => s == key | _ => false))
  | .str s => .ok (isSubOf key.data s.data)
  | _ => .error "TypeError: argument is not iterable"

/-- Subscripting `x[key]` with a string key: `KeyError` on a missing
dictionary key, `TypeError` on non-dictionaries. -/
def pySubscript (x : JVal) (key : String) : Except String JVal :=
  match x with
  | .obj fields =>
      match fields.lookup key with
      | some v => .ok v
      | none => .error ("KeyError: " ++ key)
  | _ => .error "TypeError: indices must be integers"

/-- Iteration `for item in x`: lists yield elements, dictionaries yield their
keys, strings yield one-character strings; other values raise `TypeError`. -/
def pyIter : JVal → Except String (List JVal)
  | .arr elems => .ok elems
  | .obj fields => .ok (fields.map (fun p => .str p.1))
  | .str s => .ok (s.data.map (fun c => .str (String.mk [c])))
  | _ => .error "TypeError: not iterable"

/-- Python whitespace for `str.strip()`. -/
def isPySpace (c : Char) : Bool :=
  c == ' ' || c == '\t' || c == '\n' || c == '\r'

/-- `str.strip()`. -/
def pyStrip (s : String) : String :=
  ⟨((s.data.dropWhile isPySpace).reverse.dropWhile isPySpace).reverse⟩

/-- `str.startswith(p)`. -/
def pyStartsWith (s p : String) : Bool :=
  p.data.isPrefixOf s.data

/-- Digit-string to number (the core of Python's `int`/`float`/`strptime`
digit handling); `none` when empty or a non-digit occurs. -/
def digitsToNat (cs : List Char) : Option ℕ :=
  if cs.isEmpty then none
  else if cs.all (fun c => 48 ≤ c.toNat && c.toNat ≤ 57) then
    some (cs.foldl (fun acc c => acc * 10 + (c.toNat - 48)) 0)
  else none

/-- Split a character list on a separator character (every occurrence). -/
def splitOnChar (sep : Char) : List Char → List (List Char)
  | [] => [[]]
  | c :: rest =>
      let r := splitOnChar sep rest
      if c == sep then [] :: r
      else
        match r with
        | [] => [[c]]
        | g :: gs => (c :: g) :: gs

/-- Decimal literal accepted by Python's `float()` after stripping: optional
sign, digits with at most one point, at least one digit. -/
def parseDecimal (cs : List Char) : Option ℚ :=
  let (sign, body) :=
    match cs with
    | '-' :: rest => ((-1 : ℚ), rest)
    | '+' :: rest => ((1 : ℚ), rest)
    | _ => ((1 : ℚ), cs)
  match splitOnChar '.' body with
  | [intPart] => (digitsToNat intPart).map (fun n => sign * n)
  | [intPart, fracPart] =>
      if intPart.isEmpty && fracPart.isEmpty then none
      else
        let ip := (digitsToNat intPart).getD 0
        let fp := (digitsToNat fracPart).getD 0
        if (intPart.isEmpty || (digitsToNat intPart).isSome)
            && (fracPart.isEmpty || (digitsToNat fracPart).isSome) then
          some (sign * (ip + (fp : ℚ) / (10 : ℚ) ^ fracPart.length))
        else none
  | _ => none

/-- Python `float(x)`: numbers pass through, booleans coerce, strings are
parsed (`ValueError` on garbage), anything else is a `TypeError`. -/
def pyFloat : JVal → Except String ℚ
  | .num q => .ok q
  | .bool b => .ok (if b then 1 else 0)
  | .str s =>
      match parseDecimal (pyStrip s).data with
      | some q => .ok q
      | none => .error ("ValueError: could not convert string to float: " ++ s)
  | _ => .error "TypeError: float() argument"

/-- Integer literal accepted by Python's `int()` on strings. -/
def parseIntLit (cs : List Char) : Option ℤ :=
  match cs with
  | '-' :: rest => (digitsToNat rest).map (fun n => -(n : ℤ))
  | '+' :: rest => (digitsToNat rest).map (fun n => (n : ℤ))
  | _ => (digitsToNat cs).map (fun n => (n : ℤ))

/-- Python `int(x)`: floats truncate toward zero, booleans coerce, strings
are parsed, anything else is a `TypeError`. -/
def pyInt : JVal → Except String ℤ
  | .num q => .ok (q.num.tdiv q.den)
  | .bool b => .ok (if b then 1 else 0)
  | .str s =>
      match parseIntLit (pyStrip s).data with
      | some n => .ok n
      | none => .error ("ValueError: invalid literal for int: " ++ s)
  | _ => .error "TypeError: int() argument"

/-! ## Timestamps (`pandas.Timestamp` / `NaT`) -/

/-- A parsed timestamp at second precision (enough for every format the
processors feed `pd.to_datetime`). `pd.NaT` is modelled as `Option.none`
around this type. -/
structure PyDateTime where
  year : ℕ
  month : ℕ
  day : ℕ
  hour : ℕ
  minute : ℕ
  second : ℕ
deriving DecidableEq

def isLeapYear (y : ℕ) : Bool :=
  (y % 4 == 0 && y % 100 != 0) || y % 400 == 0

def daysInMonth (y m : ℕ) : ℕ :=
  if m == 2 then (if isLeapYear y then 29 else 28)
  else if m == 4 || m == 6 || m == 9 || m == 11 then 30
  else 31

def validYmd (y m d : ℕ) : Bool :=
  1 ≤ m && m ≤ 12 && 1 ≤ d && d ≤ daysInMonth y m

/-- `pd.to_datetime(s, format="%Y-%m-%d")` (the strict date-only branch of
`DataProcessor.parse_datetime`): exactly three dash-separated all-digit
groups forming a valid calendar date. -/
def parseDateOnly (cs : List Char) : Option PyDateTime :=
  match splitOnChar '-' cs with
  | [ys, ms, ds] =>
      match digitsToNat ys, digitsToNat ms, digitsToNat ds with
      | some y, some m, some d =>
          if ys.length ≤ 4 && ms.length ≤ 2 && ds.length ≤ 2 && validYmd y m d then
            some ⟨y, m, d, 0, 0, 0⟩
          else none
      | _, _, _ => none
  | _ => none

def validHms (h mi s : ℕ) : Bool :=
  h ≤ 23 && mi ≤ 59 && s ≤ 59

/-- The time-of-day part `HH:MM[:SS]` of an ISO date-time string. -/
def parseTimePart (cs : List Char) : Option (ℕ × ℕ × ℕ) :=
  match splitOnChar ':' cs with
  | [hs, ms] =>
      match digitsToNat hs, digitsToNat ms with
      | some h, some mi => if validHms h mi 0 then some (h, mi, 0) else none
      | _, _ => none
  | [hs, ms, ss] =>
      match digitsToNat hs, digitsToNat ms, digitsToNat ss with
      | some h, some mi, some s => if validHms h mi s then some (h, mi, s) else none
      | _, _, _ => none
  | _ => none

/-- `pd.to_datetime(s)` on a string containing `"T"` (the full date-time
branch of `DataProcessor.parse_datetime`): `YYYY-MM-DDTHH:MM[:SS]`. -/
def parseIsoDateTime (cs : List Char) : Option PyDateTime :=
  match splitOnChar 'T' cs with
  | [datePart, timePart] =>
      match parseDateOnly datePart, parseTimePart timePart with
      | some d, some (h, mi, s) => some { d with hour := h, minute := mi, second := s }
      | _, _ => none
  | _ => none

/-- The body of `DataProcessor.parse_datetime`'s `try` block: the `"T" in
dt_str` membership test itself raises `TypeError` on non-strings, and each
`pd.to_datetime` call raises on an unparseable string. -/
def parse_datetime_checked (v : JVal) : Except String PyDateTime :=
  match v with
  | .str s =>
      if s.data.contains 'T' then
        match parseIsoDateTime s.data with
        | some t => .ok t
        | none => .error ("ValueError: could not parse " ++ s)
      else
        match parseDateOnly s.data with
        | some t => .ok t
        | none => .error ("ValueError: time data does not match format %Y-%m-%d: " ++ s)
  | _ => .error "TypeError: argument is not a string"

/-- `DataProcessor.parse_datetime`: the bare `except:` converts every parse
failure into `pd.NaT` (`none`); nothing ever propagates to the caller. -/
def parse_datetime (v : JVal) : Option PyDateTime :=
  match parse_datetime_checked v with
  | .ok t => some t
  | .error _ => none

/-- `Timestamp.replace(hour=h)`: rejects out-of-range hours with a
`ValueError`; `NaT.replace` yields `NaT`. -/
def tsReplaceHour (dt : Option PyDateTime) (h : ℤ) : Except String (Option PyDateTime) :=
  if h < 0 || 23 < h then .error "ValueError: hour must be in 0..23"
  else .ok (dt.map (fun t => { t with hour := h.toNat }))

/-! ## DataFrames (the fragment of `pandas` the processors use) -/

/-- A table cell. -/
inductive Cell where
  | ts (t : Option PyDateTime)
  | num (q : ℚ)
  | int (n : ℤ)
  | str (s : String)
  | raw (v : JVal)

/-- A row, as the dictionaries appended to `records` in the processors. -/
abbrev Row := List (String × Cell)

/-- A `pandas.DataFrame`: optional index column name, column names, rows.
`pd.DataFrame(records)` infers the columns from the records; for an empty
record list the frame has **no columns at all**. -/
structure DataFrame where
  indexName : Option String
  columns : List String
  rows : List Row

/-- `pd.DataFrame(records)` for a list of uniform record dictionaries. -/
def mkDataFrame (records : List Row) : DataFrame :=
  { indexName := none
    columns := ((records.head?.map (fun r => r.map Prod.fst)).getD [])
    rows := records }

/-- `pd.DataFrame(columns=cols)`: empty but with named columns. -/
def dfEmptyWithColumns (cols : List String) : DataFrame :=
  { indexName := none, columns := cols, rows := [] }

/-- `pd.DataFrame()`. -/
def dfEmpty : DataFrame := mkDataFrame []

/-- Sort key of a timestamp (lexicographic on the fields). -/
def tsKey (t : PyDateTime) : ℕ :=
  ((((t.year * 13 + t.month) * 32 + t.day) * 25 + t.hour) * 61 + t.minute) * 61 + t.second

/-- Cell order used by `sort_values("datetime")`: `NaT` sorts last
(pandas `na_position="last"`). -/
def cellLe (a b : Cell) : Bool :=
  match a, b with
  | .ts none, _ => match b with | .ts none => true | .ts (some _) => false | _ => true
  | .ts (some x), .ts (some y) => tsKey x ≤ tsKey y
  | .ts (some _), .ts none => true
  | _, _ => true

def rowLe (col : String) (r1 r2 : Row) : Bool :=
  cellLe ((r1.lookup col).getD (.ts none)) ((r2.lookup col).getD (.ts none))

/-- `df.sort_values(col)`: raises `KeyError` when `col` is not a column
(in particular on the column-less frame `pd.DataFrame([])`). -/
def sort_values (col : String) (df : DataFrame) : Except String DataFrame :=
  if df.columns.contains col then
    .ok { df with rows := df.rows.insertionSort (fun a b => rowLe col a b = true) }
  else .error ("KeyError: " ++ col)

/-- `df.set_index(col)`: moves `col` out of the columns into the index;
raises `KeyError` when absent. Row data is kept in full. -/
def set_index (col : String) (df : DataFrame) : Except String DataFrame :=
  if df.columns.contains col then
    .ok { indexName := some col, columns := df.columns.erase col, rows := df.rows }
  else .error ("KeyError: " ++ col)

/-! ## `DataProcessor` (src/data/processors.py) -/

/-- `DataProcessor.extract_content`: a bare list passes through; a dict is
probed for `body.content`, then a top-level `content`, then a top-level
`items`; the final fallback `[response] if response else []` wraps any other
truthy value in a one-element list and maps falsy values to the empty list.
The `"content" in response["body"]` guard itself can raise `TypeError` when
the body is not a container. -/
def extract_content (response : JVal) : Except String JVal :=
  match response with
  | .arr elems => .ok (.arr elems)
  | .obj fields => do
      let bodyHasContent ←
        match fields.lookup "body" with
        | none => pure false
        | some body => pyContains body "content"
      if bodyHasContent then
        pySubscript ((fields.lookup "body").getD .null) "content"
      else if (fields.lookup "content").isSome then
        pySubscript (.obj fields) "content"
      else if (fields.lookup "items").isSome then
        pySubscript (.obj fields) "items"
      else
        pure (if truthy (.obj fields) then .arr [.obj fields] else .arr [])
  | other => .ok (if truthy other then .arr [other] else .arr [])

/-- The record-building loop shared by every processor: dictionaries are
passed to the per-item row builder (whose conversions may raise), any other
item is silently skipped by the `isinstance(item, dict)` guard. -/
def buildRecords (rowsFn : List (String × JVal) → Except String (List Row)) :
    List JVal → Except String (List Row)
  | [] => .ok []
  | item :: rest =>
      match item with
      | .obj fields => do
          let rs ← rowsFn fields
          let tl ← buildRecords rowsFn rest
          return rs ++ tl
      | _ => buildRecords rowsFn rest

/-- One record of `DataProcessor.process_ptf_data`'s loop. -/
def ptfRow (item : List (String × JVal)) : Except String (List Row) := do
  let dt := parse_datetime (pyGet item "date" (.str ""))
  let price ← pyFloat (pyOr (pyGet item "price" (.num 0)) (pyGet item "value" (.num 0)))
  let hourDefault : JVal :=
    match dt with
    | some t => .num t.hour
    | none => .num 0
  let hour ← pyInt (pyGet item "hour" hourDefault)
  return [[("datetime", .ts dt), ("price", .num price), ("hour", .int hour)]]

/-- `DataProcessor.process_ptf_data`. -/
def process_ptf_data (data : JVal) : Except String DataFrame := do
  let contentV ← extract_content data
  if truthy contentV = false then
    return dfEmptyWithColumns ["datetime", "price", "hour"]
  let content ← pyIter contentV
  let records ← buildRecords ptfRow content
  let df := mkDataFrame records
  let df ← sort_values "datetime" df
  set_index "datetime" df

/-- One record of `DataProcessor.process_smf_data`'s loop. -/
def smfRow (item : List (String × JVal)) : Except String (List Row) := do
  let dt := parse_datetime (pyGet item "date" (.str ""))
  let up ← pyFloat (pyOr (pyGet item "upRegulationPrice" (.num 0)) (pyGet item "yalPrice" (.num 0)))
  let down ← pyFloat (pyOr (pyGet item "downRegulationPrice" (.num 0)) (pyGet item "yatPrice" (.num 0)))
  return [[("datetime", .ts dt), ("up_price", .num up), ("down_price", .num down),
           ("direction", .raw (pyGet item "systemDirection" (.str "")))]]

/-- `DataProcessor.process_smf_data`. -/
def process_smf_data (data : JVal) : Except String DataFrame := do
  let contentV ← extract_content data
  if truthy contentV = false then
    return dfEmptyWithColumns ["datetime", "up_price", "down_price", "direction"]
  let content ← pyIter contentV
  let records ← buildRecords smfRow content
  let df := mkDataFrame records
  let df ← sort_values "datetime" df
  set_index "datetime" df

/-- The per-item rows of `DataProcessor.process_generation_data`: a nested
`hourlyGenerations` list (when present) is expanded into one row per hour
entry with the parent date's hour replaced, otherwise the item itself is a
single row. -/
def genHourRow (item : List (String × JVal)) (dt : Option PyDateTime)
    (hourData : JVal) : Except String Row :=
  match hourData with
  | .obj hf => do
      let hr ← pyInt (pyGet hf "hour" (.num 0))
      let dt2 ← tsReplaceHour dt hr
      let gen ← pyFloat (pyGet hf "generation" (.num 0))
      return [("datetime", .ts dt2),
              ("power_plant", .raw (pyGet item "powerPlantName" (.str ""))),
              ("power_plant_id", .raw (pyGet item "powerPlantId" .null)),
              ("type", .raw (pyGet hf "generationType" (.str ""))),
              ("value", .num gen)]
  | _ => .error "AttributeError: no attribute get"

def genRows (item : List (String × JVal)) : Except String (List Row) := do
  let dt := parse_datetime (pyGet item "date" (.str ""))
  match item.lookup "hourlyGenerations" with
  | some hg => do
      let hours ← pyIter hg
      hours.mapM (genHourRow item dt)
  | none => do
      let gen ← pyFloat (pyOr (pyGet item "generation" (.num 0)) (pyGet item "value" (.num 0)))
      return [[("datetime", .ts dt),
               ("power_plant", .raw (pyGet item "powerPlantName" (.str ""))),
               ("power_plant_id", .raw (pyGet item "powerPlantId" .null)),
               ("type", .raw (pyGet item "generationType" (.str ""))),
               ("value", .num gen)]]

/-- `DataProcessor.process_generation_data`; note the `if not df.empty`
guard before sorting, absent from the price processors. -/
def process_generation_data (data : JVal) : Except String DataFrame := do
  let contentV ← extract_content data
  if truthy contentV = false then
    return dfEmptyWithColumns ["datetime", "power_plant", "type", "value"]
  let content ← pyIter contentV
  let records ← buildRecords genRows content
  let df := mkDataFrame records
  if df.rows.isEmpty then
    return df
  let df ← sort_values "datetime" df
  set_index "datetime" df

/-- The per-item rows of `DataProcessor.process_kgup_data`: `hourlyPlans`
(when present) is expanded into one row per hour entry, otherwise the item
is a single row. -/
def kgupHourRow (item : List (String × JVal)) (dt : Option PyDateTime)
    (hourData : JVal) : Except String Row :=
  match hourData with
  | .obj hf => do
      let hr ← pyInt (pyGet hf "hour" (.num 0))
      let dt2 ← tsReplaceHour dt hr
      let plan ← pyFloat (pyGet hf "plannedGeneration" (.num 0))
      return [("datetime", .ts dt2),
              ("uevcb", .raw (pyGet item "uevcbName" (.str ""))),
              ("uevcb_id", .raw (pyGet item "uevcbId" .null)),
              ("planned_generation", .num plan)]
  | _ => .error "AttributeError: no attribute get"

def kgupRows (item : List (String × JVal)) : Except String (List Row) := do
  let dt := parse_datetime (pyGet item "date" (.str ""))
  match item.lookup "hourlyPlans" with
  | some hp => do
      let hours ← pyIter hp
      hours.mapM (kgupHourRow item dt)
  | none => do
      let plan ← pyFloat (pyOr (pyGet item "plannedGeneration" (.num 0)) (pyGet item "value" (.num 0)))
      return [[("datetime", .ts dt),
               ("uevcb", .raw (pyGet item "uevcbName" (.str ""))),
               ("uevcb_id", .raw (pyGet item "uevcbId" .null)),
               ("planned_generation", .num plan)]]

/-- `DataProcessor.process_kgup_data`. -/
def process_kgup_data (data : JVal) : Except String DataFrame := do
  let contentV ← extract_content data
  if truthy contentV = false then
    return dfEmptyWithColumns ["datetime", "uevcb", "planned_generation"]
  let content ← pyIter contentV
  let records ← buildRecords kgupRows content
  let df := mkDataFrame records
  if df.rows.isEmpty then
    return df
  let df ← sort_values "datetime" df
  set_index "datetime" df

/-- `DataProcessor.process_dashboard_data`; `now` stands for
`datetime.now()`. -/
def process_dashboard_data (now : PyDateTime) (data : JVal) : Except String DataFrame := do
  let hasBody ←
    if truthy data = false then pure false
    else pyContains data "body"
  if truthy data = false || hasBody = false then
    return dfEmpty
  let body ← pySubscript data "body"
  let hasSummary ← pyContains body "summary"
  if hasSummary then
    let summary ← pySubscript body "summary"
    match summary with
    | .obj sf =>
        return mkDataFrame (sf.map (fun p =>
          [("metric", .str p.1), ("value", .raw p.2), ("timestamp", .ts (some now))]))
    | _ => .error "AttributeError: no attribute items"
  else
    let hasData ← pyContains body "data"
    if hasData then
      let d ← pySubscript body "data"
      let items ← pyIter d
      let records := items.foldr (fun item acc =>
        match item with
        | .obj f =>
            [("metric", .raw (pyGet f "name" (.str ""))),
             ("value", .raw (pyGet f "value" (.num 0))),
             ("change", .raw (pyGet f "change" (.num 0))),
             ("timestamp", .ts (parse_datetime (pyGet f "date" (.str ""))))] :: acc
        | _ => acc) []
      return mkDataFrame records
    else
      return mkDataFrame []

/-! ## `TGTManager` (src/api/auth.py) -/

/-- Token validity window, seconds (`TTL_SECONDS = 2 * 60 * 60`). -/
def TTL_SECONDS : ℚ := 2 * 60 * 60

/-- The mutable fields of a `TGTManager` (`_token`, `_expires_at`); times are
`time.time()` values. -/
structure TGTState where
  _token : Option String
  _expires_at : ℚ

/-- `TGTManager.__init__`: no token, `_expires_at = 0.0`. -/
def tgtInit : TGTState := { _token := none, _expires_at := 0 }

/-- What the authentication endpoint answers a refresh with. -/
structure AuthResponse where
  status : ℕ
  text : String

/-- `requests.Response.raise_for_status()` raises exactly on 4xx/5xx. -/
def raiseForStatusFails (s : ℕ) : Bool :=
  400 ≤ s && s < 600

/-- The spec's error taxonomy for the authentication path. In the source the
two cases surface as `requests.HTTPError` (from `raise_for_status`) and
`ValueError("Unexpected token format returned by CAS")`. -/
inductive AuthenticationError where
  | httpError (status : ℕ)
  | badTicketFormat (token : String)

/-- `TGTManager._request_new_token`: fail on 4xx/5xx, strip the body, fail
unless it starts with the literal `"TGT-"`, otherwise return it. -/
def _request_new_token (resp : AuthResponse) : Except AuthenticationError String :=
  if raiseForStatusFails resp.status then .error (.httpError resp.status)
  else
    let token := pyStrip resp.text
    if pyStartsWith token "TGT-" then .ok token
    else .error (.badTicketFormat token)

/-- Result of one `TGTManager.current` call: the value returned, how many
network requests to the auth endpoint were made, and the state afterwards. -/
structure CurrentResult where
  token : Option String
  calls : ℕ
  state : TGTState

/-- `TGTManager.current(force_refresh)` at wall-clock time `now`, where
`fresh` is the token a successful `_request_new_token` would return: refresh
when forced or expired (caching the new expiry one minute early), otherwise
return the cached token with no network activity. -/
def TGTManager.current (s : TGTState) (now : ℚ) (fresh : String)
    (force_refresh : Bool) : CurrentResult :=
  if force_refresh || s._expires_at ≤ now then
    { token := some fresh, calls := 1,
      state := { _token := some fresh, _expires_at := now + TTL_SECONDS - 60 } }
  else
    { token := s._token, calls := 0, state := s }

/-- Ghost extension of `TGTState` recording when the cached token was
acquired, to express the token's real (server-side) expiry. -/
structure TGTGhostState where
  base : TGTState
  acquired_at : ℚ

/-- `TGTManager.current` on the ghost state: identical to
`TGTManager.current` on `base` (the acquisition time is write-only). -/
def TGTManager.currentG (g : TGTGhostState) (now : ℚ) (fresh : String)
    (force_refresh : Bool) : Option String × ℕ × TGTGhostState :=
  let r := TGTManager.current g.base now fresh force_refresh
  if r.calls = 0 then (r.token, r.calls, g)
  else (r.token, r.calls, { base := r.state, acquired_at := now })

/-- Invariant tying the cached expiry to the acquisition time: whenever a
token is cached, `_expires_at` was computed as acquisition time plus the
validity window minus the 60-second margin. -/
def TGTInv (g : TGTGhostState) : Prop :=
  ∀ tk, g.base._token = some tk → g.base._expires_at = g.acquired_at + TTL_SECONDS - 60

/-! ## `EpiasClient._request` (src/api/epias.py) -/

/-- One raw data-endpoint response: HTTP status plus the decoded JSON body
(`resp.json()`). -/
structure HttpResponse where
  status : ℕ
  body : JVal

/-- The spec's `APIError`: a non-2xx data-endpoint response surfaced after
the single permitted retry, carrying the status and body (in the source a
`requests.HTTPError` from `raise_for_status`). -/
structure APIError where
  status : ℕ
  body : JVal

/-- 401/406, the two statuses `_request` treats as an expired token. -/
def isAuthFailure (s : ℕ) : Bool :=
  s == 401 || s == 406

/-- Trace of one `EpiasClient._request` call. -/
structure RequestOutcome where
  /-- total HTTP attempts issued for this logical request -/
  attempts : ℕ
  /-- forced ticket refreshes performed -/
  refreshes : ℕ
  /-- the `TGT` header value attached to each attempt, in order -/
  ticketsUsed : List String
  result : Except APIError JVal

/-- `EpiasClient._request`: attach the current ticket; on a 401/406 first
response, force-refresh the ticket once and retry the same request once;
then `raise_for_status` surfaces any remaining non-2xx as an error and a
passing response is returned as its parsed JSON body. `server n` is the
response the server gives the `n`-th attempt (0-based); `ticket0` is
`tgt_mgr.current()` and `forcedTicket` is
`tgt_mgr.current(force_refresh=True)`. -/
def EpiasClient._request (ticket0 forcedTicket : String)
    (server : ℕ → HttpResponse) : RequestOutcome :=
  let r0 := server 0
  if isAuthFailure r0.status then
    let r1 := server 1
    if raiseForStatusFails r1.status then
      { attempts := 2, refreshes := 1, ticketsUsed := [ticket0, forcedTicket],
        result := .error ⟨r1.status, r1.body⟩ }
    else
      { attempts := 2, refreshes := 1, ticketsUsed := [ticket0, forcedTicket],
        result := .ok r1.body }
  else if raiseForStatusFails r0.status then
    { attempts := 1, refreshes := 0, ticketsUsed := [ticket0],
      result := .error ⟨r0.status, r0.body⟩ }
  else
    { attempts := 1, refreshes := 0, ticketsUsed := [ticket0],
      result := .ok r0.body }

/-! ## Pagination driver -/

/-- One page envelope: the page's content plus the total-page metadata when
the server provides it. -/
structure PageEnvelope where
  content : List JVal
  totalPages : Option ℕ

/-- Modelled from the spec: `EPIASClient.get_paginated` is imported and
called by every fetcher in src/data/fetchers.py but its definition is not
among the sources. Following §4.3 of the spec: issue the first page, read
the total-page metadata from the envelope, and issue subsequent pages
sequentially until the last page is retrieved; a response without page
metadata terminates after the single call. `server n` is the envelope the
server returns for page number `n` (1-based). -/
def get_paginated (server : ℕ → PageEnvelope) : List JVal :=
  let first := server 1
  match first.totalPages with
  | none => first.content
  | some tp => first.content ++ (List.range (tp - 1)).flatMap (fun i => (server (i + 2)).content)

/-- A faithful paginated server over a fixed record list: page `n` holds
records `(n-1)*pageSize ..< n*pageSize` and the metadata reports
`⌈records.length / pageSize⌉` total pages. -/
def mkPageServer (records : List JVal) (pageSize : ℕ) : ℕ → PageEnvelope :=
  fun n => { content := (records.drop ((n - 1) * pageSize)).take pageSize,
             totalPages := some ((records.length + pageSize - 1) / pageSize) }

/-- The oracle: what a single fetch with an unbounded page size returns —
page 1 of a server whose page size is at least the whole record count. -/
def singleUnboundedFetch (records : List JVal) (bigSize : ℕ) : List JVal :=
  (mkPageServer records bigSize 1).content

/-! ## `DataFetcher` batch fan-out (src/data/fetchers.py) -/

/-- The six dashboard endpoints fanned out by
`DataFetcher.fetch_dashboard_data`. -/
def dashboardEndpoints : List String :=
  ["bpm", "dam", "idm", "consumption", "generation", "weighted_price"]

/-- `DataFetcher.fetch_dashboard_data`: the six `client.get` calls run under
`asyncio.gather(..., return_exceptions=True)`, so each outcome arrives as a
value or as an exception object (`results` here); an exception is logged and
replaced by `pd.DataFrame()`, a value is processed. An error raised while
processing a successful result propagates (the surrounding `except` merely
logs and re-raises). -/
def fetchDashboardEntry (now : PyDateTime)
    (p : String × Except APIError JVal) : Except String (String × DataFrame) :=
  match p.2 with
  | .error _ => pure (p.1, dfEmpty)
  | .ok v => do
      let df ← process_dashboard_data now v
      pure (p.1, df)

def fetch_dashboard_data (now : PyDateTime)
    (results : List (Except APIError JVal)) :
    Except String (List (String × DataFrame)) :=
  (dashboardEndpoints.zip results).mapM (fetchDashboardEntry now)

/-- An entry of `DataFetcher.fetch_organization_overview`'s result
dictionary: a DataFrame for the data domains, a raw list for `uevcb_list`. -/
inductive OverviewEntry where
  | table (df : DataFrame)
  | idList (l : List JVal)

/-- The five sub-fetches of `fetch_organization_overview`, in insertion
order. -/
def overviewKeys : List String :=
  ["uevcb_list", "generation", "kgup", "ptf", "smf"]

/-- The per-key fallback of `fetch_organization_overview`'s `except` branch:
`pd.DataFrame() if name != "uevcb_list" else []`. -/
def emptyOverviewEntry (name : String) : OverviewEntry :=
  if name == "uevcb_list" then .idList [] else .table dfEmpty

/-- `DataFetcher.fetch_organization_overview`: each of the five sub-fetches
is awaited inside `try/except Exception`, so an individual failure is logged
and replaced by the empty entry for that key; nothing propagates. `sub`
gives each sub-fetch's outcome. -/
def fetch_organization_overview (sub : String → Except APIError OverviewEntry) :
    List (String × OverviewEntry) :=
  overviewKeys.map (fun name =>
    (name, match sub name with
           | .ok v => v
           | .error _ => emptyOverviewEntry name))

/-! ## Theorems -/

def exceptIsOk {ε α : Type _} : Except ε α → Bool
  | .ok _ => true
  | .error _ => false

/-- C1: for every request, if the first response has status 401 or 406 the
client performs exactly one forced ticket refresh and exactly one retry of
the same request (two total attempts, the retry carrying the refreshed
ticket); the parsed body is returned when the retry comes back 2xx, and any
failing retry status — including a second 401/406 — surfaces as an
`APIError` with no further retry. -/
theorem claim_C1_http_retry (ticket0 forcedTicket : String)
    (server : ℕ → HttpResponse)
    (h : isAuthFailure (server 0).status = true) :
    (EpiasClient._request ticket0 forcedTicket server).attempts = 2 ∧
    (EpiasClient._request ticket0 forcedTicket server).refreshes = 1 ∧
    (EpiasClient._request ticket0 forcedTicket server).ticketsUsed
      = [ticket0, forcedTicket] ∧
    (200 ≤ (server 1).status ∧ (server 1).status < 300 →
      (EpiasClient._request ticket0 forcedTicket server).result = .ok (server 1).body) ∧
    (raiseForStatusFails (server 1).status = true →
      (EpiasClient._request ticket0 forcedTicket server).result
        = .error ⟨(server 1).status, (server 1).body⟩) := by
  by_cases hf : raiseForStatusFails (server 1).status = true
  · refine ⟨?_, ?_, ?_, ?_, ?_⟩ <;>
      simp only [EpiasClient._request, h, if_true, hf] <;>
      try first | rfl | exact fun _ => trivial
    intro ⟨h2a, h2b⟩
    exfalso
    simp only [raiseForStatusFails, Bool.and_eq_true, decide_eq_true_eq] at hf
    omega
  · refine ⟨?_, ?_, ?_, ?_, ?_⟩ <;>
      simp only [EpiasClient._request, h, if_true, hf, Bool.not_eq_true] <;>
      simp [Bool.not_eq_true] at hf <;>
      simp [hf]

/-- Witness for C1 at a concrete server: first response 401, retry 200. -/
def c1Server : ℕ → HttpResponse :=
  fun n => if n == 0 then ⟨401, .null⟩ else ⟨200, .bool true⟩

theorem claim_C1_http_retry_witness :
    (EpiasClient._request "t0" "t1" c1Server).attempts = 2 ∧
    (EpiasClient._request "t0" "t1" c1Server).refreshes = 1 ∧
    (EpiasClient._request "t0" "t1" c1Server).ticketsUsed = ["t0", "t1"] ∧
    (200 ≤ (c1Server 1).status ∧ (c1Server 1).status < 300 →
      (EpiasClient._request "t0" "t1" c1Server).result = .ok (c1Server 1).body) ∧
    (raiseForStatusFails (c1Server 1).status = true →
      (EpiasClient._request "t0" "t1" c1Server).result
        = .error ⟨(c1Server 1).status, (c1Server 1).body⟩) :=
  claim_C1_http_retry "t0" "t1" c1Server (by decide)

/-- C6: requesting a new ticket fails (with the authentication-error
taxonomy: HTTP failure or malformed ticket) whenever the endpoint answers
with a non-success status or the stripped body does not start with the
literal `"TGT-"` prefix. -/
theorem claim_C6_auth_failure (resp : AuthResponse)
    (h : raiseForStatusFails resp.status = true ∨
         pyStartsWith (pyStrip resp.text) "TGT-" = false) :
    ∃ e, _request_new_token resp = .error e := by
  unfold _request_new_token
  rcases h with h | h
  · rw [h]
    exact ⟨_, rfl⟩
  · by_cases hs : raiseForStatusFails resp.status = true
    · rw [hs]
      exact ⟨_, rfl⟩
    · simp only [Bool.not_eq_true] at hs
      rw [hs]
      simp only [Bool.false_eq_true, if_false, h]
      exact ⟨_, rfl⟩

theorem claim_C6_auth_failure_witness :
    (∃ e, _request_new_token ⟨500, "TGT-good"⟩ = .error e) ∧
    (∃ e, _request_new_token ⟨200, "not-a-ticket"⟩ = .error e) :=
  ⟨claim_C6_auth_failure ⟨500, "TGT-good"⟩ (Or.inl (by decide)),
   claim_C6_auth_failure ⟨200, "not-a-ticket"⟩ (Or.inr (by decide))⟩

/-- C7: with an unexpired cached ticket, two successive `current()` calls
with `force_refresh` unset both return the identical cached ticket value,
and the second call performs no network request and leaves the cached
ticket and expiry unchanged. -/
theorem claim_C7_current_idempotent (s : TGTState) (tk : String)
    (t1 t2 : ℚ) (f1 f2 : String)
    (htok : s._token = some tk)
    (h1 : t1 < s._expires_at) (h2 : t2 < s._expires_at) :
    (TGTManager.current s t1 f1 false).token = some tk ∧
    (TGTManager.current s t1 f1 false).calls = 0 ∧
    (TGTManager.current (TGTManager.current s t1 f1 false).state t2 f2 false).token
      = some tk ∧
    (TGTManager.current (TGTManager.current s t1 f1 false).state t2 f2 false).calls
      = 0 ∧
    (TGTManager.current (TGTManager.current s t1 f1 false).state t2 f2 false).state
      = s := by
  have n1 : ¬ s._expires_at ≤ t1 := not_le.mpr h1
  have n2 : ¬ s._expires_at ≤ t2 := not_le.mpr h2
  simp [TGTManager.current, n1, n2, htok]

theorem claim_C7_current_idempotent_witness :
    (TGTManager.current ⟨some "TGT-abc", 100⟩ 10 "f1" false).token = some "TGT-abc" ∧
    (TGTManager.current ⟨some "TGT-abc", 100⟩ 10 "f1" false).calls = 0 ∧
    (TGTManager.current
      (TGTManager.current ⟨some "TGT-abc", 100⟩ 10 "f1" false).state 20 "f2" false).token
        = some "TGT-abc" ∧
    (TGTManager.current
      (TGTManager.current ⟨some "TGT-abc", 100⟩ 10 "f1" false).state 20 "f2" false).calls
        = 0 ∧
    (TGTManager.current
      (TGTManager.current ⟨some "TGT-abc", 100⟩ 10 "f1" false).state 20 "f2" false).state
        = ⟨some "TGT-abc", 100⟩ :=
  claim_C7_current_idempotent ⟨some "TGT-abc", 100⟩ "TGT-abc" 10 20 "f1" "f2"
    rfl (by norm_num) (by norm_num)

/-- C8: starting from any state satisfying the acquisition invariant, a
`current()` call preserves the invariant, every refresh caches an expiry
equal to the acquisition time plus the validity window minus a 60-second
margin, and any ticket value returned still has its real expiry
(acquisition time plus the validity window) at least 60 seconds away. -/
theorem claim_C8_expiry_margin (g : TGTGhostState) (now : ℚ) (fresh : String)
    (force : Bool) (hinv : TGTInv g) :
    TGTInv (TGTManager.currentG g now fresh force).2.2 ∧
    ((TGTManager.currentG g now fresh force).2.1 = 1 →
      (TGTManager.currentG g now fresh force).2.2.base._expires_at
        = (TGTManager.currentG g now fresh force).2.2.acquired_at + TTL_SECONDS - 60) ∧
    (∀ tk, (TGTManager.currentG g now fresh force).1 = some tk →
      (TGTManager.currentG g now fresh force).2.2.acquired_at + TTL_SECONDS - now
        ≥ 60) := by
  by_cases hc : (force || decide (g.base._expires_at ≤ now)) = true
  · constructor
    · intro tk htk
      simp [TGTManager.currentG, TGTManager.current, hc] at htk ⊢
    · constructor
      · intro _
        simp [TGTManager.currentG, TGTManager.current, hc]
      · intro tk htk
        simp only [TGTManager.currentG, TGTManager.current, hc, if_true]
        simp only [TTL_SECONDS]
        norm_num
  · have hnow : ¬ g.base._expires_at ≤ now := by
      rcases Bool.or_eq_false_iff.mp (Bool.not_eq_true _ |>.mp hc) with ⟨_, hd⟩
      exact of_decide_eq_false hd
    constructor
    · intro tk htk
      simp [TGTManager.currentG, TGTManager.current, hc] at htk ⊢
      exact hinv tk htk
    · constructor
      · intro hcalls
        exfalso
        simp [TGTManager.currentG, TGTManager.current, hc] at hcalls
      · intro tk htk
        simp [TGTManager.currentG, TGTManager.current, hc] at htk ⊢
        have hexp := hinv tk htk
        have : now < g.base._expires_at := lt_of_not_le hnow
        rw [hexp] at this
        linarith

theorem claim_C8_expiry_margin_witness :
    TGTInv (TGTManager.currentG ⟨⟨some "TGT-a", 7140⟩, 0⟩ 100 "TGT-b" false).2.2 ∧
    ((TGTManager.currentG ⟨⟨some "TGT-a", 7140⟩, 0⟩ 100 "TGT-b" false).2.1 = 1 →
      (TGTManager.currentG ⟨⟨some "TGT-a", 7140⟩, 0⟩ 100 "TGT-b" false).2.2.base._expires_at
        = (TGTManager.currentG ⟨⟨some "TGT-a", 7140⟩, 0⟩ 100 "TGT-b" false).2.2.acquired_at
            + TTL_SECONDS - 60) ∧
    (∀ tk, (TGTManager.currentG ⟨⟨some "TGT-a", 7140⟩, 0⟩ 100 "TGT-b" false).1 = some tk →
      (TGTManager.currentG ⟨⟨some "TGT-a", 7140⟩, 0⟩ 100 "TGT-b" false).2.2.acquired_at
          + TTL_SECONDS - 100 ≥ 60) :=
  claim_C8_expiry_margin ⟨⟨some "TGT-a", 7140⟩, 0⟩ 100 "TGT-b" false
    (by intro tk _; norm_num [TTL_SECONDS])

/-- Counterexample to C4 as stated: for a dict matching none of the known
envelope shapes the extraction does **not** fail loudly — it silently wraps
the whole response in a one-element list. -/
theorem claim_C4_counterexample :
    extract_content (JVal.obj [("foo", .num 1)])
      = .ok (.arr [.obj [("foo", .num 1)]]) ∧
    exceptIsOk (extract_content (JVal.obj [("foo", .num 1)])) = true :=
  ⟨rfl, rfl⟩

/-- Reference decoder following the amended claim's words: try body/content,
then a top-level `content`, then a top-level `items`, then a bare list; when
nothing matches, wrap a truthy response in a one-element list and map a
falsy one to the empty list (no loud failure). -/
def extract_content_spec (response : JVal) : JVal :=
  match response with
  | .arr elems => .arr elems
  | .obj fields =>
      match (match fields.lookup "body" with
             | some (.obj bf) => bf.lookup "content"
             | _ => none) with
      | some c => c
      | none =>
          match fields.lookup "content" with
          | some c => c
          | none =>
              match fields.lookup "items" with
              | some c => c
              | none => if truthy (.obj fields) then .arr [response] else .arr []
  | other => if truthy other then .arr [other] else .arr []

theorem exceptBindOk {ε α β : Type _} (a : α) (f : α → Except ε β) :
    (Except.ok a : Except ε α) >>= f = f a := rfl

theorem exceptBindErr {ε α β : Type _} (e : ε) (f : α → Except ε β) :
    (Except.error e : Except ε α) >>= f = .error e := rfl

/-- C4 (amended): for responses whose `body` entry, when present, is a dict,
extraction attempts the known envelope shapes in priority order —
body/content, top-level `content`, top-level `items`, bare list — returning
the matching content, and when none of these shapes matches it does not
fail: a truthy response is wrapped in a one-element list and a falsy one
yields the empty list. When a `body` entry is present but is not a dict,
the `"content" in response["body"]` probe raises `TypeError` instead:
immediately for a non-container body, and at the `response["body"]["content"]`
subscription when the probe matches inside a list or string body. -/
theorem claim_C4_extraction_priority :
    (∀ response : JVal,
      (∀ fields b, response = .obj fields →
        fields.lookup "body" = some b → b.isObj = true) →
      extract_content response = .ok (extract_content_spec response)) ∧
    (∀ (fields : List (String × JVal)) (b : JVal),
      List.lookup "body" fields = some b →
      (∃ msg, pyContains b "content" = .error msg) →
      ∃ e, extract_content (.obj fields) = .error e) ∧
    (∀ (fields : List (String × JVal)) (b : JVal),
      List.lookup "body" fields = some b → b.isObj = false →
      pyContains b "content" = .ok true →
      ∃ e, extract_content (.obj fields) = .error e) := by
  refine ⟨?_, ?_, ?_⟩
  · intro response hbody
    cases response with
    | null => rfl
    | bool b => cases b <;> rfl
    | num q => simp [extract_content, extract_content_spec]
    | str s => rfl
    | arr elems => rfl
    | obj fields =>
        cases hb : fields.lookup "body" with
        | none =>
            simp only [extract_content, extract_content_spec, hb, exceptBindOk]
            cases hc : fields.lookup "content" with
            | some c => simp [pySubscript, hc, exceptBindOk]
            | none =>
                cases hi : fields.lookup "items" with
                | some c => simp [pySubscript, hc, hi, exceptBindOk]
                | none => simp [pySubscript, hc, hi, exceptBindOk, pure, Except.pure]
        | some b =>
            have hobj := hbody fields b rfl hb
            cases b with
            | obj bf =>
                simp only [extract_content, extract_content_spec, hb, pyContains]
                cases hbc : bf.lookup "content" with
                | some c =>
                    simp [hbc, pySubscript, hb, exceptBindOk]
                | none =>
                    simp only [hbc, Option.isSome_none, exceptBindOk]
                    cases hc : fields.lookup "content" with
                    | some c => simp [pySubscript, hc, exceptBindOk]
                    | none =>
                        cases hi : fields.lookup "items" with
                        | some c => simp [pySubscript, hc, hi, exceptBindOk]
                        | none => simp [pySubscript, hc, hi, exceptBindOk, pure, Except.pure]
            | null => simp [JVal.isObj] at hobj
            | bool x => simp [JVal.isObj] at hobj
            | num x => simp [JVal.isObj] at hobj
            | str x => simp [JVal.isObj] at hobj
            | arr x => simp [JVal.isObj] at hobj
  · intro fields b hb hmsg
    obtain ⟨msg, hmsg⟩ := hmsg
    refine ⟨msg, ?_⟩
    simp only [extract_content, hb, hmsg, exceptBindErr]
  · intro fields b hb hnotobj hcont
    cases b with
    | obj bf => simp [JVal.isObj] at hnotobj
    | null => cases hcont
    | bool x => cases hcont
    | num x => cases hcont
    | str s =>
        refine ⟨"TypeError: indices must be integers", ?_⟩
        simp only [extract_content, hb, hcont, exceptBindOk, if_true, Option.getD_some,
          pySubscript]
    | arr elems =>
        refine ⟨"TypeError: indices must be integers", ?_⟩
        simp only [extract_content, hb, hcont, exceptBindOk, if_true, Option.getD_some,
          pySubscript]

theorem claim_C4_extraction_priority_witness :
    extract_content (JVal.obj [("body", .obj [("content", .arr [.num 1])])])
      = .ok (.arr [.num 1]) ∧
    (∃ e, extract_content (JVal.obj [("body", .num 5), ("content", .arr [.num 1])])
      = .error e) ∧
    (∃ e, extract_content (JVal.obj [("body", .str "xcontentx"), ("content", .arr [.num 1])])
      = .error e) :=
  ⟨claim_C4_extraction_priority.1
    (JVal.obj [("body", .obj [("content", .arr [.num 1])])])
    (by
      intro fields b hf hb
      cases hf
      cases hb
      rfl),
   claim_C4_extraction_priority.2.1 [("body", .num 5), ("content", .arr [.num 1])]
     (.num 5) rfl ⟨"TypeError: argument is not iterable", rfl⟩,
   claim_C4_extraction_priority.2.2 [("body", .str "xcontentx"), ("content", .arr [.num 1])]
     (.str "xcontentx") rfl rfl rfl⟩

/-- The `isinstance(item, dict)` guard: content with no dictionary items
builds an empty record list (without failing). -/
theorem buildRecords_no_objs (rowsFn : List (String × JVal) → Except String (List Row))
    (xs : List JVal) (h : ∀ x ∈ xs, x.isObj = false) :
    buildRecords rowsFn xs = .ok [] := by
  induction xs with
  | nil => rfl
  | cons x rest ih =>
      have hx := h x (List.mem_cons_self x rest)
      have hrest : ∀ y ∈ rest, y.isObj = false := fun y hy => h y (List.mem_cons_of_mem x hy)
      cases x with
      | obj f => simp [JVal.isObj] at hx
      | null => simpa [buildRecords] using ih hrest
      | bool b => simpa [buildRecords] using ih hrest
      | num q => simpa [buildRecords] using ih hrest
      | str s => simpa [buildRecords] using ih hrest
      | arr e => simpa [buildRecords] using ih hrest

/-- C10: when the extracted content list is non-empty but holds no
dictionary items, `process_ptf_data` and `process_smf_data` die with a
`KeyError` on `"datetime"` (sorting the column-less `pd.DataFrame([])`)
instead of returning an empty table; the early return with the documented
columns happens only for an empty extracted content list. -/
theorem claim_C10_nondict_content_keyerror (data : JVal) (xs : List JVal)
    (hx : extract_content data = .ok (.arr xs)) :
    (xs ≠ [] → (∀ x ∈ xs, x.isObj = false) →
      process_ptf_data data = .error "KeyError: datetime" ∧
      process_smf_data data = .error "KeyError: datetime") ∧
    (xs = [] →
      process_ptf_data data = .ok (dfEmptyWithColumns ["datetime", "price", "hour"]) ∧
      process_smf_data data
        = .ok (dfEmptyWithColumns ["datetime", "up_price", "down_price", "direction"])) := by
  constructor
  · intro hne hobjs
    have hbuild1 := buildRecords_no_objs ptfRow xs hobjs
    have hbuild2 := buildRecords_no_objs smfRow xs hobjs
    have htr : truthy (.arr xs) = true := by
      cases xs with
      | nil => exact absurd rfl hne
      | cons a l => simp [truthy]
    constructor
    · simp [process_ptf_data, hx, exceptBindOk, exceptBindErr, htr, pyIter, hbuild1,
            mkDataFrame, sort_values]
    · simp [process_smf_data, hx, exceptBindOk, exceptBindErr, htr, pyIter, hbuild2,
            mkDataFrame, sort_values]
  · intro he
    subst he
    constructor
    · simp [process_ptf_data, hx, exceptBindOk, truthy, pure, Except.pure]
    · simp [process_smf_data, hx, exceptBindOk, truthy, pure, Except.pure]

theorem claim_C10_nondict_content_keyerror_witness :
    process_ptf_data (.arr [.str "a"]) = .error "KeyError: datetime" ∧
    process_smf_data (.arr [.str "a"]) = .error "KeyError: datetime" ∧
    process_ptf_data (.arr []) = .ok (dfEmptyWithColumns ["datetime", "price", "hour"]) :=
  have h1 := (claim_C10_nondict_content_keyerror (.arr [.str "a"]) [.str "a"] rfl).1
    (by simp)
    (by
      intro x hmem
      rcases List.mem_singleton.mp hmem with rfl
      rfl)
  have h2 := (claim_C10_nondict_content_keyerror (.arr []) [] rfl).2 rfl
  ⟨h1.1, h1.2, h2.1⟩

/-- `sort_values` permutes the rows (it never invents or drops one). -/
theorem sort_values_rows_perm (col : String) (df df2 : DataFrame)
    (h : sort_values col df = .ok df2) : df2.rows.Perm df.rows := by
  unfold sort_values at h
  by_cases hc : df.columns.contains col = true
  · rw [if_pos hc] at h
    cases h
    exact List.perm_insertionSort (fun a b => rowLe col a b = true) df.rows
  · rw [if_neg hc] at h
    cases h

/-- `set_index` keeps the row data untouched. -/
theorem set_index_rows_eq (col : String) (df df2 : DataFrame)
    (h : set_index col df = .ok df2) : df2.rows = df.rows := by
  unfold set_index at h
  by_cases hc : df.columns.contains col = true
  · rw [if_pos hc] at h
    cases h
    rfl
  · rw [if_neg hc] at h
    cases h

/-- Rows built from a dictionary item of the content survive into the
combined record list. -/
theorem buildRecords_mem (rowsFn : List (String × JVal) → Except String (List Row))
    (xs : List JVal) (rs : List Row) (fields : List (String × JVal)) (rlist : List Row)
    (hb : buildRecords rowsFn xs = .ok rs) (hmem : (JVal.obj fields) ∈ xs)
    (hrow : rowsFn fields = .ok rlist) : ∀ r ∈ rlist, r ∈ rs := by
  induction xs generalizing rs with
  | nil => cases hmem
  | cons x rest ih =>
      rcases List.mem_cons.mp hmem with rfl | htail
      · rw [buildRecords, hrow] at hb
        cases hbr : buildRecords rowsFn rest with
        | error e => rw [hbr] at hb; cases hb
        | ok tl =>
            rw [hbr] at hb
            cases hb
            intro r hr
            exact List.mem_append_left tl hr
      · cases x with
        | obj f2 =>
            rw [buildRecords] at hb
            cases hf2 : rowsFn f2 with
            | error e => rw [hf2] at hb; cases hb
            | ok rs2 =>
                rw [hf2] at hb
                cases hbr : buildRecords rowsFn rest with
                | error e => rw [hbr] at hb; cases hb
                | ok tl =>
                    rw [hbr] at hb
                    cases hb
                    intro r hr
                    exact List.mem_append_right rs2 (ih tl hbr htail r hr)
        | null => exact ih rs hb htail
        | bool b => exact ih rs hb htail
        | num q => exact ih rs hb htail
        | str s => exact ih rs hb htail
        | arr e => exact ih rs hb htail

/-- C9: timestamp parsing never raises — the `try` body's success value is
returned and every parse failure (date-only, date-time or non-string input)
becomes the `NaT` sentinel — and a record whose timestamp parsed to the
sentinel is still emitted as a row of `process_ptf_data`'s output (with
`datetime = NaT`), not dropped. -/
theorem claim_C9_parse_never_raises :
    (∀ v t, parse_datetime_checked v = .ok t → parse_datetime v = some t) ∧
    (∀ v e, parse_datetime_checked v = .error e → parse_datetime v = none) ∧
    (∀ (data : JVal) (xs : List JVal) (fields : List (String × JVal)) (q : ℚ)
       (hr : ℤ) (df : DataFrame),
      extract_content data = .ok (.arr xs) →
      (JVal.obj fields) ∈ xs →
      parse_datetime (pyGet fields "date" (.str "")) = none →
      pyFloat (pyOr (pyGet fields "price" (.num 0)) (pyGet fields "value" (.num 0)))
        = .ok q →
      pyInt (pyGet fields "hour" (.num 0)) = .ok hr →
      process_ptf_data data = .ok df →
      [("datetime", Cell.ts none), ("price", Cell.num q), ("hour", Cell.int hr)]
        ∈ df.rows) := by
  refine ⟨?_, ?_, ?_⟩
  · intro v t h
    unfold parse_datetime
    rw [h]
  · intro v e h
    unfold parse_datetime
    rw [h]
  · intro data xs fields q hr df hx hmem hdt hq hhr hp
    have hrow : ptfRow fields
        = .ok [[("datetime", Cell.ts none), ("price", Cell.num q), ("hour", Cell.int hr)]] := by
      simp only [ptfRow, hdt, hq, hhr, exceptBindOk]
      rfl
    have htr : truthy (.arr xs) = true := by
      cases xs with
      | nil => cases hmem
      | cons a l => simp [truthy]
    unfold process_ptf_data at hp
    rw [hx] at hp
    simp only [exceptBindOk, htr, Bool.true_eq_false, if_false, pyIter] at hp
    cases hbr : buildRecords ptfRow xs with
    | error e => rw [hbr] at hp; cases hp
    | ok records =>
        rw [hbr] at hp
        simp only [exceptBindOk] at hp
        have hrmem : [("datetime", Cell.ts none), ("price", Cell.num q), ("hour", Cell.int hr)]
            ∈ records :=
          buildRecords_mem ptfRow xs records fields _ hbr hmem hrow _ (List.mem_singleton_self _)
        cases hs : sort_values "datetime" (mkDataFrame records) with
        | error e => rw [hs] at hp; cases hp
        | ok df1 =>
            rw [hs] at hp
            simp only [exceptBindOk] at hp
            have hperm := sort_values_rows_perm "datetime" (mkDataFrame records) df1 hs
            have hrows := set_index_rows_eq "datetime" df1 df hp
            rw [hrows]
            exact hperm.mem_iff.mpr hrmem

theorem claim_C9_parse_never_raises_witness :
    [("datetime", Cell.ts none), ("price", Cell.num 5), ("hour", Cell.int 0)]
      ∈ (DataFrame.mk (some "datetime") ["price", "hour"]
          [[("datetime", Cell.ts none), ("price", Cell.num 5), ("hour", Cell.int 0)]]).rows :=
  claim_C9_parse_never_raises.2.2
    (.arr [.obj [("date", .str "garbage"), ("price", .num 5)]])
    [.obj [("date", .str "garbage"), ("price", .num 5)]]
    [("date", .str "garbage"), ("price", .num 5)]
    5 0
    (DataFrame.mk (some "datetime") ["price", "hour"]
      [[("datetime", Cell.ts none), ("price", Cell.num 5), ("hour", Cell.int 0)]])
    rfl (List.mem_singleton_self _) rfl rfl rfl rfl

/-! ## C5: hourly-breakdown expansion -/

/-- A wire-format hourly generation entry (`hour`, `generationType`,
`generation`). -/
def encodeGenHour (e : ℕ × String × ℚ) : JVal :=
  .obj [("hour", .num e.1), ("generationType", .str e.2.1), ("generation", .num e.2.2)]

/-- The row `process_generation_data` derives from one hourly entry of a
record with parent date `d`. -/
def expectedGenRow (name : String) (pid : JVal) (d : PyDateTime) (e : ℕ × String × ℚ) : Row :=
  [("datetime", .ts (some { d with hour := e.1 })),
   ("power_plant", .raw (.str name)),
   ("power_plant_id", .raw pid),
   ("type", .raw (.str e.2.1)),
   ("value", .num e.2.2)]

/-- A generation record carrying a nested `hourlyGenerations` breakdown. -/
def genItemHourly (ds name : String) (pid : JVal) (hs : List (ℕ × String × ℚ)) : JVal :=
  .obj [("date", .str ds), ("powerPlantName", .str name), ("powerPlantId", pid),
        ("hourlyGenerations", .arr (hs.map encodeGenHour))]

/-- A generation record in the simple (breakdown-free) format. -/
def genItemSimple (ds name : String) (pid : JVal) (g : ℚ) : JVal :=
  .obj [("date", .str ds), ("powerPlantName", .str name), ("powerPlantId", pid),
        ("generation", .num g)]

def expectedGenSimpleRow (name : String) (pid : JVal) (d : PyDateTime) (g : ℚ) : Row :=
  [("datetime", .ts (some d)),
   ("power_plant", .raw (.str name)),
   ("power_plant_id", .raw pid),
   ("type", .raw (.str "")),
   ("value", .num g)]

/-- A wire-format hourly plan entry (`hour`, `plannedGeneration`). -/
def encodeKgupHour (e : ℕ × ℚ) : JVal :=
  .obj [("hour", .num e.1), ("plannedGeneration", .num e.2)]

def expectedKgupRow (uname : String) (uid : JVal) (d : PyDateTime) (e : ℕ × ℚ) : Row :=
  [("datetime", .ts (some { d with hour := e.1 })),
   ("uevcb", .raw (.str uname)),
   ("uevcb_id", .raw uid),
   ("planned_generation", .num e.2)]

def kgupItemHourly (ds uname : String) (uid : JVal) (ks : List (ℕ × ℚ)) : JVal :=
  .obj [("date", .str ds), ("uevcbName", .str uname), ("uevcbId", uid),
        ("hourlyPlans", .arr (ks.map encodeKgupHour))]

def kgupItemSimple (ds uname : String) (uid : JVal) (g : ℚ) : JVal :=
  .obj [("date", .str ds), ("uevcbName", .str uname), ("uevcbId", uid),
        ("plannedGeneration", .num g)]

def expectedKgupSimpleRow (uname : String) (uid : JVal) (d : PyDateTime) (g : ℚ) : Row :=
  [("datetime", .ts (some d)),
   ("uevcb", .raw (.str uname)),
   ("uevcb_id", .raw uid),
   ("planned_generation", .num g)]

theorem pyInt_natCast (n : ℕ) : pyInt (.num n) = .ok (n : ℤ) := by
  simp [pyInt]

theorem tsReplaceHour_natCast (d : PyDateTime) (n : ℕ) (h : n ≤ 23) :
    tsReplaceHour (some d) (n : ℤ) = .ok (some { d with hour := n }) := by
  have h1 : ¬ ((n : ℤ) < 0) := by omega
  have h2 : ¬ ((23 : ℤ) < (n : ℤ)) := by exact_mod_cast not_lt.mpr h
  simp [tsReplaceHour, h1, h2]

/-- Mapping `genHourRow` over an encoded hourly breakdown yields exactly the
expected rows, one per entry. -/
theorem genHourRow_mapM (item : List (String × JVal)) (d : PyDateTime)
    (hs : List (ℕ × String × ℚ)) (hb : ∀ e ∈ hs, e.1 ≤ 23) :
    (hs.map encodeGenHour).mapM (genHourRow item (some d))
      = .ok (hs.map (fun e =>
          [("datetime", Cell.ts (some { d with hour := e.1 })),
           ("power_plant", .raw (pyGet item "powerPlantName" (.str ""))),
           ("power_plant_id", .raw (pyGet item "powerPlantId" .null)),
           ("type", .raw (.str e.2.1)),
           ("value", .num e.2.2)])) := by
  induction hs with
  | nil => rfl
  | cons e rest ih =>
      have hb0 : e.1 ≤ 23 := hb e (List.mem_cons_self e rest)
      have hbrest : ∀ x ∈ rest, x.1 ≤ 23 := fun x hx => hb x (List.mem_cons_of_mem e hx)
      have hone : genHourRow item (some d) (encodeGenHour e)
          = .ok [("datetime", Cell.ts (some { d with hour := e.1 })),
                 ("power_plant", .raw (pyGet item "powerPlantName" (.str ""))),
                 ("power_plant_id", .raw (pyGet item "powerPlantId" .null)),
                 ("type", .raw (.str e.2.1)),
                 ("value", .num e.2.2)] := by
        have hg1 : pyGet [("hour", JVal.num e.1), ("generationType", .str e.2.1),
            ("generation", .num e.2.2)] "hour" (.num 0) = .num e.1 := rfl
        simp only [genHourRow, encodeGenHour, hg1, pyInt_natCast, exceptBindOk,
          tsReplaceHour_natCast d e.1 hb0]
        rfl
      simp only [List.map_cons, List.mapM_cons, hone, ih hbrest]
      rfl

/-- Mapping `kgupHourRow` over an encoded hourly plan yields exactly the
expected rows, one per entry. -/
theorem kgupHourRow_mapM (item : List (String × JVal)) (d : PyDateTime)
    (ks : List (ℕ × ℚ)) (hb : ∀ e ∈ ks, e.1 ≤ 23) :
    (ks.map encodeKgupHour).mapM (kgupHourRow item (some d))
      = .ok (ks.map (fun e =>
          [("datetime", Cell.ts (some { d with hour := e.1 })),
           ("uevcb", .raw (pyGet item "uevcbName" (.str ""))),
           ("uevcb_id", .raw (pyGet item "uevcbId" .null)),
           ("planned_generation", .num e.2)])) := by
  induction ks with
  | nil => rfl
  | cons e rest ih =>
      have hb0 : e.1 ≤ 23 := hb e (List.mem_cons_self e rest)
      have hbrest : ∀ x ∈ rest, x.1 ≤ 23 := fun x hx => hb x (List.mem_cons_of_mem e hx)
      have hone : kgupHourRow item (some d) (encodeKgupHour e)
          = .ok [("datetime", Cell.ts (some { d with hour := e.1 })),
                 ("uevcb", .raw (pyGet item "uevcbName" (.str ""))),
                 ("uevcb_id", .raw (pyGet item "uevcbId" .null)),
                 ("planned_generation", .num e.2)] := by
        have hg1 : pyGet [("hour", JVal.num e.1), ("plannedGeneration", .num e.2)]
            "hour" (.num 0) = .num e.1 := rfl
        simp only [kgupHourRow, encodeKgupHour, hg1, pyInt_natCast, exceptBindOk,
          tsReplaceHour_natCast d e.1 hb0]
        rfl
      simp only [List.map_cons, List.mapM_cons, hone, ih hbrest]
      rfl

theorem process_gen_hourly_ok (ds name : String) (pid : JVal) (d : PyDateTime)
    (hs : List (ℕ × String × ℚ)) (hd : parse_datetime (.str ds) = some d)
    (hbg : ∀ e ∈ hs, e.1 ≤ 23) :
    ∃ df, process_generation_data (.arr [genItemHourly ds name pid hs]) = .ok df ∧
      df.rows.length = hs.length ∧
      df.rows.Perm (hs.map (expectedGenRow name pid d)) := by
  have h1 : pyGet [("date", JVal.str ds), ("powerPlantName", .str name),
      ("powerPlantId", pid), ("hourlyGenerations", .arr (hs.map encodeGenHour))]
      "date" (.str "") = .str ds := rfl
  have h2 : List.lookup "hourlyGenerations"
      [("date", JVal.str ds), ("powerPlantName", .str name),
       ("powerPlantId", pid), ("hourlyGenerations", .arr (hs.map encodeGenHour))]
      = some (.arr (hs.map encodeGenHour)) := rfl
  have hgen : genRows [("date", JVal.str ds), ("powerPlantName", .str name),
      ("powerPlantId", pid), ("hourlyGenerations", .arr (hs.map encodeGenHour))]
      = .ok (hs.map (expectedGenRow name pid d)) := by
    unfold genRows
    rw [h1, hd, h2]
    simp only [pyIter, exceptBindOk]
    rw [genHourRow_mapM _ d hs hbg]
    exact rfl
  have hbuild : buildRecords genRows [genItemHourly ds name pid hs]
      = .ok (hs.map (expectedGenRow name pid d)) := by
    simp only [genItemHourly, buildRecords, hgen, exceptBindOk, List.append_nil]
    exact rfl
  have hstep : process_generation_data (.arr [genItemHourly ds name pid hs])
      = (do
          let df := mkDataFrame (hs.map (expectedGenRow name pid d))
          if df.rows.isEmpty then return df
          let df2 ← sort_values "datetime" df
          set_index "datetime" df2) := by
    unfold process_generation_data
    rw [show extract_content (.arr [genItemHourly ds name pid hs])
        = .ok (.arr [genItemHourly ds name pid hs]) from rfl]
    simp only [exceptBindOk]
    rw [show truthy (.arr [genItemHourly ds name pid hs]) = true from rfl]
    simp only [Bool.true_eq_false, if_false, pyIter, exceptBindOk, hbuild]
    exact rfl
  cases hs with
  | nil =>
      refine ⟨mkDataFrame [], ?_, by simp [mkDataFrame], by simp [mkDataFrame]⟩
      rw [hstep]
      rfl
  | cons e rest =>
      refine ⟨{ indexName := some "datetime",
                columns := ["power_plant", "power_plant_id", "type", "value"],
                rows := ((e :: rest).map (expectedGenRow name pid d)).insertionSort
                  (fun a b => rowLe "datetime" a b = true) }, ?_, ?_, ?_⟩
      · rw [hstep]
        exact rfl
      · have hperm := List.perm_insertionSort (fun a b => rowLe "datetime" a b = true)
          ((e :: rest).map (expectedGenRow name pid d))
        simpa using hperm.length_eq
      · exact List.perm_insertionSort _ _

theorem process_gen_simple_ok (ds name : String) (pid : JVal) (d : PyDateTime) (g : ℚ)
    (hd : parse_datetime (.str ds) = some d) :
    process_generation_data (.arr [genItemSimple ds name pid g])
      = .ok { indexName := some "datetime",
              columns := ["power_plant", "power_plant_id", "type", "value"],
              rows := [expectedGenSimpleRow name pid d g] } := by
  have hval : pyFloat (pyOr
      (pyGet [("date", JVal.str ds), ("powerPlantName", .str name),
        ("powerPlantId", pid), ("generation", .num g)] "generation" (.num 0))
      (pyGet [("date", JVal.str ds), ("powerPlantName", .str name),
        ("powerPlantId", pid), ("generation", .num g)] "value" (.num 0))) = .ok g := by
    by_cases hg : g = 0
    · subst hg
      exact rfl
    · have hb : (g == 0) = false := beq_eq_false_iff_ne.mpr hg
      rw [show pyGet [("date", JVal.str ds), ("powerPlantName", .str name),
        ("powerPlantId", pid), ("generation", .num g)] "generation" (.num 0)
        = .num g from rfl]
      rw [show pyGet [("date", JVal.str ds), ("powerPlantName", .str name),
        ("powerPlantId", pid), ("generation", .num g)] "value" (.num 0)
        = .num 0 from rfl]
      simp [pyOr, truthy, hb, pyFloat]
  have hgen : genRows [("date", JVal.str ds), ("powerPlantName", .str name),
      ("powerPlantId", pid), ("generation", .num g)]
      = .ok [expectedGenSimpleRow name pid d g] := by
    unfold genRows
    rw [show pyGet [("date", JVal.str ds), ("powerPlantName", .str name),
      ("powerPlantId", pid), ("generation", .num g)] "date" (.str "") = .str ds from rfl, hd]
    rw [show List.lookup "hourlyGenerations" [("date", JVal.str ds), ("powerPlantName", .str name),
      ("powerPlantId", pid), ("generation", .num g)] = (none : Option JVal) from rfl]
    rw [hval]
    exact rfl
  have hbuild : buildRecords genRows [genItemSimple ds name pid g]
      = .ok [expectedGenSimpleRow name pid d g] := by
    simp only [genItemSimple, buildRecords, hgen, exceptBindOk, List.append_nil]
    exact rfl
  unfold process_generation_data
  rw [show extract_content (.arr [genItemSimple ds name pid g])
      = .ok (.arr [genItemSimple ds name pid g]) from rfl]
  simp only [exceptBindOk]
  rw [show truthy (.arr [genItemSimple ds name pid g]) = true from rfl]
  simp only [Bool.true_eq_false, if_false, pyIter, exceptBindOk, hbuild]
  exact rfl

theorem process_kgup_hourly_ok (ds uname : String) (uid : JVal) (d : PyDateTime)
    (ks : List (ℕ × ℚ)) (hd : parse_datetime (.str ds) = some d)
    (hbk : ∀ e ∈ ks, e.1 ≤ 23) :
    ∃ df, process_kgup_data (.arr [kgupItemHourly ds uname uid ks]) = .ok df ∧
      df.rows.length = ks.length ∧
      df.rows.Perm (ks.map (expectedKgupRow uname uid d)) := by
  have hgen : kgupRows [("date", JVal.str ds), ("uevcbName", .str uname),
      ("uevcbId", uid), ("hourlyPlans", .arr (ks.map encodeKgupHour))]
      = .ok (ks.map (expectedKgupRow uname uid d)) := by
    unfold kgupRows
    rw [show pyGet [("date", JVal.str ds), ("uevcbName", .str uname),
      ("uevcbId", uid), ("hourlyPlans", .arr (ks.map encodeKgupHour))] "date" (.str "")
      = .str ds from rfl, hd]
    rw [show List.lookup "hourlyPlans" [("date", JVal.str ds), ("uevcbName", .str uname),
      ("uevcbId", uid), ("hourlyPlans", .arr (ks.map encodeKgupHour))]
      = some (.arr (ks.map encodeKgupHour)) from rfl]
    simp only [pyIter, exceptBindOk]
    rw [kgupHourRow_mapM _ d ks hbk]
    exact rfl
  have hbuild : buildRecords kgupRows [kgupItemHourly ds uname uid ks]
      = .ok (ks.map (expectedKgupRow uname uid d)) := by
    simp only [kgupItemHourly, buildRecords, hgen, exceptBindOk, List.append_nil]
    exact rfl
  have hstep : process_kgup_data (.arr [kgupItemHourly ds uname uid ks])
      = (do
          let df := mkDataFrame (ks.map (expectedKgupRow uname uid d))
          if df.rows.isEmpty then return df
          let df2 ← sort_values "datetime" df
          set_index "datetime" df2) := by
    unfold process_kgup_data
    rw [show extract_content (.arr [kgupItemHourly ds uname uid ks])
        = .ok (.arr [kgupItemHourly ds uname uid ks]) from rfl]
    simp only [exceptBindOk]
    rw [show truthy (.arr [kgupItemHourly ds uname uid ks]) = true from rfl]
    simp only [Bool.true_eq_false, if_false, pyIter, exceptBindOk, hbuild]
    exact rfl
  cases ks with
  | nil =>
      refine ⟨mkDataFrame [], ?_, by simp [mkDataFrame], by simp [mkDataFrame]⟩
      rw [hstep]
      rfl
  | cons e rest =>
      refine ⟨{ indexName := some "datetime",
                columns := ["uevcb", "uevcb_id", "planned_generation"],
                rows := ((e :: rest).map (expectedKgupRow uname uid d)).insertionSort
                  (fun a b => rowLe "datetime" a b = true) }, ?_, ?_, ?_⟩
      · rw [hstep]
        exact rfl
      · have hperm := List.perm_insertionSort (fun a b => rowLe "datetime" a b = true)
          ((e :: rest).map (expectedKgupRow uname uid d))
        simpa using hperm.length_eq
      · exact List.perm_insertionSort _ _

theorem process_kgup_simple_ok (ds uname : String) (uid : JVal) (d : PyDateTime) (g : ℚ)
    (hd : parse_datetime (.str ds) = some d) :
    process_kgup_data (.arr [kgupItemSimple ds uname uid g])
      = .ok { indexName := some "datetime",
              columns := ["uevcb", "uevcb_id", "planned_generation"],
              rows := [expectedKgupSimpleRow uname uid d g] } := by
  have hval : pyFloat (pyOr
      (pyGet [("date", JVal.str ds), ("uevcbName", .str uname),
        ("uevcbId", uid), ("plannedGeneration", .num g)] "plannedGeneration" (.num 0))
      (pyGet [("date", JVal.str ds), ("uevcbName", .str uname),
        ("uevcbId", uid), ("plannedGeneration", .num g)] "value" (.num 0))) = .ok g := by
    by_cases hg : g = 0
    · subst hg
      exact rfl
    · have hb : (g == 0) = false := beq_eq_false_iff_ne.mpr hg
      rw [show pyGet [("date", JVal.str ds), ("uevcbName", .str uname),
        ("uevcbId", uid), ("plannedGeneration", .num g)] "plannedGeneration" (.num 0)
        = .num g from rfl]
      rw [show pyGet [("date", JVal.str ds), ("uevcbName", .str uname),
        ("uevcbId", uid), ("plannedGeneration", .num g)] "value" (.num 0)
        = .num 0 from rfl]
      simp [pyOr, truthy, hb, pyFloat]
  have hgen : kgupRows [("date", JVal.str ds), ("uevcbName", .str uname),
      ("uevcbId", uid), ("plannedGeneration", .num g)]
      = .ok [expectedKgupSimpleRow uname uid d g] := by
    unfold kgupRows
    rw [show pyGet [("date", JVal.str ds), ("uevcbName", .str uname),
      ("uevcbId", uid), ("plannedGeneration", .num g)] "date" (.str "") = .str ds from rfl, hd]
    rw [show List.lookup "hourlyPlans" [("date", JVal.str ds), ("uevcbName", .str uname),
      ("uevcbId", uid), ("plannedGeneration", .num g)] = (none : Option JVal) from rfl]
    rw [hval]
    exact rfl
  have hbuild : buildRecords kgupRows [kgupItemSimple ds uname uid g]
      = .ok [expectedKgupSimpleRow uname uid d g] := by
    simp only [kgupItemSimple, buildRecords, hgen, exceptBindOk, List.append_nil]
    exact rfl
  unfold process_kgup_data
  rw [show extract_content (.arr [kgupItemSimple ds uname uid g])
      = .ok (.arr [kgupItemSimple ds uname uid g]) from rfl]
  simp only [exceptBindOk]
  rw [show truthy (.arr [kgupItemSimple ds uname uid g]) = true from rfl]
  simp only [Bool.true_eq_false, if_false, pyIter, exceptBindOk, hbuild]
  exact rfl

/-- C5: a record carrying a nested hourly breakdown of N entries and a
parseable parent date expands to exactly N rows — one per entry, the row's
timestamp being the parent date with its hour replaced by the entry's hour
offset and the row's numeric value the entry's per-hour source value — in
both the generation and the plan (KGÜP) normalizer; a record without a
breakdown yields exactly one row. -/
theorem claim_C5_hourly_expansion (ds name uname : String) (pid uid : JVal)
    (d : PyDateTime) (g g2 : ℚ)
    (hs : List (ℕ × String × ℚ)) (ks : List (ℕ × ℚ))
    (hd : parse_datetime (.str ds) = some d)
    (hbg : ∀ e ∈ hs, e.1 ≤ 23) (hbk : ∀ e ∈ ks, e.1 ≤ 23) :
    (∃ df, process_generation_data (.arr [genItemHourly ds name pid hs]) = .ok df ∧
       df.rows.length = hs.length ∧
       df.rows.Perm (hs.map (expectedGenRow name pid d))) ∧
    (process_generation_data (.arr [genItemSimple ds name pid g])
       = .ok { indexName := some "datetime",
               columns := ["power_plant", "power_plant_id", "type", "value"],
               rows := [expectedGenSimpleRow name pid d g] }) ∧
    (∃ df, process_kgup_data (.arr [kgupItemHourly ds uname uid ks]) = .ok df ∧
       df.rows.length = ks.length ∧
       df.rows.Perm (ks.map (expectedKgupRow uname uid d))) ∧
    (process_kgup_data (.arr [kgupItemSimple ds uname uid g2])
       = .ok { indexName := some "datetime",
               columns := ["uevcb", "uevcb_id", "planned_generation"],
               rows := [expectedKgupSimpleRow uname uid d g2] }) :=
  ⟨process_gen_hourly_ok ds name pid d hs hd hbg,
   process_gen_simple_ok ds name pid d g hd,
   process_kgup_hourly_ok ds uname uid d ks hd hbk,
   process_kgup_simple_ok ds uname uid d g2 hd⟩

theorem claim_C5_hourly_expansion_witness :
    (∃ df, process_generation_data
        (.arr [genItemHourly "2024-01-02" "P" (.num 9) [(3, "Wind", 5)]]) = .ok df ∧
       df.rows.length = [(3, "Wind", (5 : ℚ))].length ∧
       df.rows.Perm ([((3 : ℕ), "Wind", (5 : ℚ))].map
         (expectedGenRow "P" (.num 9) ⟨2024, 1, 2, 0, 0, 0⟩))) ∧
    (process_generation_data (.arr [genItemSimple "2024-01-02" "P" (.num 9) 2])
       = .ok { indexName := some "datetime",
               columns := ["power_plant", "power_plant_id", "type", "value"],
               rows := [expectedGenSimpleRow "P" (.num 9) ⟨2024, 1, 2, 0, 0, 0⟩ 2] }) ∧
    (∃ df, process_kgup_data
        (.arr [kgupItemHourly "2024-01-02" "U" (.num 8) [(4, 7)]]) = .ok df ∧
       df.rows.length = [((4 : ℕ), (7 : ℚ))].length ∧
       df.rows.Perm ([((4 : ℕ), (7 : ℚ))].map
         (expectedKgupRow "U" (.num 8) ⟨2024, 1, 2, 0, 0, 0⟩))) ∧
    (process_kgup_data (.arr [kgupItemSimple "2024-01-02" "U" (.num 8) 0])
       = .ok { indexName := some "datetime",
               columns := ["uevcb", "uevcb_id", "planned_generation"],
               rows := [expectedKgupSimpleRow "U" (.num 8) ⟨2024, 1, 2, 0, 0, 0⟩ 0] }) :=
  claim_C5_hourly_expansion "2024-01-02" "P" "U" (.num 9) (.num 8)
    ⟨2024, 1, 2, 0, 0, 0⟩ 2 0 [(3, "Wind", 5)] [(4, 7)] rfl
    (by
      intro e he
      rcases List.mem_singleton.mp he with rfl
      norm_num)
    (by
      intro e he
      rcases List.mem_singleton.mp he with rfl
      norm_num)

theorem flatMap_map_succ (f : ℕ → List JVal) (l : List ℕ) :
    (l.map Nat.succ).flatMap f = l.flatMap (fun i => f (i + 1)) := by
  induction l with
  | nil => rfl
  | cons a t ih => simp [List.flatMap_cons, ih, Nat.succ_eq_add_one]

/-- Concatenating the first `k` pages of size `p` gives the first `k * p`
records. -/
theorem chunks_join (recs : List JVal) (p : ℕ) (k : ℕ) :
    (List.range k).flatMap (fun i => (recs.drop (i * p)).take p) = recs.take (k * p) := by
  induction k with
  | zero => simp
  | succ n ih =>
      rw [List.range_succ, List.flatMap_append, ih]
      simp only [List.flatMap_cons, List.flatMap_nil, List.append_nil]
      rw [show (n + 1) * p = n * p + p by ring, List.take_add]

/-- The pagination driver over a faithful paginated server reassembles the
full record list. -/
theorem paginated_eq_all (recs : List JVal) (p : ℕ) (hp : 0 < p) :
    get_paginated (mkPageServer recs p) = recs := by
  unfold get_paginated mkPageServer
  cases htp : (recs.length + p - 1) / p with
  | zero =>
      have hd := Nat.div_add_mod (recs.length + p - 1) p
      rw [htp] at hd
      have hm := Nat.mod_lt (recs.length + p - 1) hp
      have hlen : recs.length = 0 := by
        generalize hr : (recs.length + p - 1) % p = r at hd hm
        omega
      have hnil : recs = [] := List.eq_nil_of_length_eq_zero hlen
      subst hnil
      simp
  | succ m =>
      have hd := Nat.div_add_mod (recs.length + p - 1) p
      rw [htp] at hd
      have hm := Nat.mod_lt (recs.length + p - 1) hp
      have hle : recs.length ≤ (m + 1) * p := by
        have hcomm : p * Nat.succ m = (m + 1) * p := by
          rw [Nat.succ_eq_add_one]
          ring
        rw [hcomm] at hd
        generalize hq : (m + 1) * p = q at hd ⊢
        generalize hr : (recs.length + p - 1) % p = r at hd hm
        omega
      have key : (List.range (m + 1)).flatMap (fun i => (recs.drop (i * p)).take p)
          = recs := by
        rw [chunks_join]
        exact List.take_of_length_le hle
      conv_rhs => rw [← key]
      rw [List.range_succ_eq_map, List.flatMap_cons, flatMap_map_succ]
      exact rfl

/-- C2: for every valid date range `start ≤ end`, fetching through the
pagination driver (first page, total-page metadata, then the remaining
pages) returns the records of all pages with no duplicate and no gap —
exactly the record list itself, which is also what a single fetch with an
unbounded page size returns — and a response without page metadata
terminates the driver after the single call. -/
theorem claim_C2_pagination_union (recordsFor : ℤ → ℤ → List JVal)
    (start end_ : ℤ) (pageSize big : ℕ)
    (_hrange : start ≤ end_) (hp : 0 < pageSize)
    (hbig : (recordsFor start end_).length ≤ big) :
    get_paginated (mkPageServer (recordsFor start end_) pageSize)
      = recordsFor start end_ ∧
    get_paginated (mkPageServer (recordsFor start end_) pageSize)
      = singleUnboundedFetch (recordsFor start end_) big ∧
    (∀ server : ℕ → PageEnvelope, (server 1).totalPages = none →
      get_paginated server = (server 1).content) := by
  have h1 := paginated_eq_all (recordsFor start end_) pageSize hp
  refine ⟨h1, ?_, ?_⟩
  · rw [h1]
    unfold singleUnboundedFetch mkPageServer
    simp [List.take_of_length_le hbig]
  · intro server hnone
    unfold get_paginated
    simp only [hnone]

theorem claim_C2_pagination_union_witness :
    get_paginated (mkPageServer [JVal.num 1, .num 2, .num 3] 2)
      = [JVal.num 1, .num 2, .num 3] ∧
    get_paginated (mkPageServer [JVal.num 1, .num 2, .num 3] 2)
      = singleUnboundedFetch [JVal.num 1, .num 2, .num 3] 10 ∧
    (∀ server : ℕ → PageEnvelope, (server 1).totalPages = none →
      get_paginated server = (server 1).content) :=
  claim_C2_pagination_union (fun _ _ => [JVal.num 1, .num 2, .num 3]) 0 1 2 10
    (by norm_num) (by norm_num) (by norm_num)

/-- What one dashboard batch entry must look like relative to its gather
outcome: same key; an exception is replaced by the empty frame; a value is
the processed frame. -/
def dashEntryMatches (now : PyDateTime) (p : String × Except APIError JVal)
    (q : String × DataFrame) : Prop :=
  q.1 = p.1 ∧
  (∀ e, p.2 = .error e → q.2 = dfEmpty) ∧
  (∀ v, p.2 = .ok v → process_dashboard_data now v = .ok q.2)

theorem mapM_dashboard_entries (now : PyDateTime)
    (pairs : List (String × Except APIError JVal))
    (h : ∀ p ∈ pairs, ∀ v, p.2 = .ok v →
      exceptIsOk (process_dashboard_data now v) = true) :
    ∃ l, pairs.mapM (fetchDashboardEntry now) = .ok l ∧
      List.Forall₂ (dashEntryMatches now) pairs l := by
  induction pairs with
  | nil => exact ⟨[], rfl, List.Forall₂.nil⟩
  | cons p rest ih =>
      have hrest : ∀ q ∈ rest, ∀ v, q.2 = .ok v →
          exceptIsOk (process_dashboard_data now v) = true :=
        fun q hq => h q (List.mem_cons_of_mem p hq)
      obtain ⟨l, hl, hf⟩ := ih hrest
      cases hp2 : p.2 with
      | error e =>
          refine ⟨(p.1, dfEmpty) :: l, ?_, ?_⟩
          · rw [List.mapM_cons]
            simp only [fetchDashboardEntry, hp2, hl, exceptBindOk]
            exact rfl
          · exact List.Forall₂.cons
              ⟨rfl, fun _ _ => rfl, fun v hv => by rw [hp2] at hv; cases hv⟩ hf
      | ok v =>
          have hok := h p (List.mem_cons_self p rest) v hp2
          cases hpd : process_dashboard_data now v with
          | error e => rw [hpd] at hok; cases hok
          | ok df =>
              refine ⟨(p.1, df) :: l, ?_, ?_⟩
              · rw [List.mapM_cons]
                simp only [fetchDashboardEntry, hp2, hpd, hl, exceptBindOk]
                exact rfl
              · refine List.Forall₂.cons ⟨rfl, ?_, ?_⟩ hf
                · intro e he
                  rw [hp2] at he
                  cases he
                · intro v2 hv2
                  rw [hp2] at hv2
                  cases hv2
                  exact hpd

theorem dash_forall2_fst (now : PyDateTime)
    (pairs : List (String × Except APIError JVal)) (l : List (String × DataFrame))
    (hf : List.Forall₂ (dashEntryMatches now) pairs l) :
    l.map Prod.fst = pairs.map Prod.fst := by
  induction hf with
  | nil => rfl
  | cons h _ ih => simp [ih, h.1]

/-- C3: in a multi-entity batch fetch, an individual sub-fetch failure never
aborts the batch: `fetch_dashboard_data` still returns one entry per
endpoint (the failing endpoint's entry being the empty frame, the others the
processed data), and `fetch_organization_overview` returns one entry per
sub-fetch key with the empty fallback substituted exactly at the failures —
neither call raises. -/
theorem claim_C3_batch_fanout (now : PyDateTime)
    (results : List (Except APIError JVal))
    (sub : String → Except APIError OverviewEntry)
    (hlen : results.length = 6)
    (h : ∀ r ∈ results, ∀ v, r = .ok v →
      exceptIsOk (process_dashboard_data now v) = true) :
    (∃ l, fetch_dashboard_data now results = .ok l ∧
      l.length = 6 ∧
      l.map Prod.fst = dashboardEndpoints ∧
      List.Forall₂ (dashEntryMatches now) (dashboardEndpoints.zip results) l) ∧
    ((fetch_organization_overview sub).length = 5 ∧
     (fetch_organization_overview sub).map Prod.fst = overviewKeys ∧
     (∀ name ∈ overviewKeys,
       (∀ e, sub name = .error e →
         (name, emptyOverviewEntry name) ∈ fetch_organization_overview sub) ∧
       (∀ v, sub name = .ok v → (name, v) ∈ fetch_organization_overview sub))) := by
  constructor
  · have hzip : ∀ p ∈ dashboardEndpoints.zip results, ∀ v, p.2 = .ok v →
        exceptIsOk (process_dashboard_data now v) = true :=
      fun p hp => h p.2 (List.of_mem_zip hp).2
    obtain ⟨l, hl, hf⟩ := mapM_dashboard_entries now (dashboardEndpoints.zip results) hzip
    refine ⟨l, hl, ?_, ?_, hf⟩
    · have hzl := hf.length_eq
      rw [List.length_zip, hlen] at hzl
      simp only [show dashboardEndpoints.length = 6 from rfl, min_self] at hzl
      exact hzl.symm
    · rw [dash_forall2_fst now _ l hf]
      exact List.map_fst_zip dashboardEndpoints results (by rw [hlen]; rfl)
  · refine ⟨rfl, rfl, ?_⟩
    intro name hn
    constructor
    · intro e he
      refine List.mem_map.mpr ⟨name, hn, ?_⟩
      rw [he]
    · intro v hv
      refine List.mem_map.mpr ⟨name, hn, ?_⟩
      rw [hv]

/-- One gather outcome per dashboard endpoint: the second endpoint fails,
the others succeed. -/
def c3Results : List (Except APIError JVal) :=
  [.ok (.obj [("body", .obj [("summary", .obj [("x", .num 1)])])]),
   .error ⟨500, .null⟩, .ok .null, .ok .null, .ok .null, .ok .null]

/-- Overview sub-fetch outcomes with exactly the `kgup` fetch failing. -/
def c3Sub : String → Except APIError OverviewEntry :=
  fun name => if name == "kgup" then .error ⟨500, .null⟩ else .ok (.table dfEmpty)

theorem claim_C3_batch_fanout_witness :
    (∃ l, fetch_dashboard_data ⟨2024, 1, 1, 0, 0, 0⟩ c3Results = .ok l ∧
      l.length = 6 ∧
      l.map Prod.fst = dashboardEndpoints ∧
      List.Forall₂ (dashEntryMatches ⟨2024, 1, 1, 0, 0, 0⟩)
        (dashboardEndpoints.zip c3Results) l) ∧
    ((fetch_organization_overview c3Sub).length = 5 ∧
     (fetch_organization_overview c3Sub).map Prod.fst = overviewKeys ∧
     (∀ name ∈ overviewKeys,
       (∀ e, c3Sub name = .error e →
         (name, emptyOverviewEntry name) ∈ fetch_organization_overview c3Sub) ∧
       (∀ v, c3Sub name = .ok v → (name, v) ∈ fetch_organization_overview c3Sub))) :=
  claim_C3_batch_fanout ⟨2024, 1, 1, 0, 0, 0⟩ c3Results c3Sub rfl
    (by
      intro r hr v hv
      simp only [c3Results, List.mem_cons, List.not_mem_nil, or_false] at hr
      rcases hr with rfl | rfl | rfl | rfl | rfl | rfl
      · cases hv
        rfl
      · cases hv
      · cases hv
        rfl
      · cases hv
        rfl
      · cases hv
        rfl
      · cases hv
        rfl)
